import Mathlib

/-!
Verification of the Water-Sim grid engine against its specification.

The simulation state texture stores four channels per cell:
r = height, g = velocity, b = normalX, a = normalZ.
Each GPGPU pass reads the whole read buffer, writes every cell of the
write buffer as a pure function of the read buffer, and swaps; so at the
level of observable grid states every pass is a total function from grids
to grids, which is how it is embedded here.

Texture sampling: the render targets use clamp-to-edge addressing, and
every sample in the shaders lands exactly on a texel center offset by at
most one texel, so sampling is modelled by index clamping into [0, N-1].
-/

namespace WaterSim

/-- One texel of the simulation texture: r = height, g = velocity,
b = normalX, a = normalZ. -/
@[ext]
structure Texel where
  r : ℝ
  g : ℝ
  b : ℝ
  a : ℝ

/-- The grid of an N by N simulation texture. -/
abbrev Grid (N : ℕ) := Fin N → Fin N → Texel

/-- The uv coordinate of the center of texel i on an axis with N texels. -/
noncomputable def cellUV (N : ℕ) (i : Fin N) : ℝ :=
  ((i : ℝ) + 1 / 2) / N

/-- Index of the texel sampled at one texel above i under clamp-to-edge
addressing. -/
def clampUp {N : ℕ} (i : Fin N) : Fin N :=
  ⟨min (N - 1) (i.val + 1), by have h := i.isLt; omega⟩

/-- Index of the texel sampled at one texel below i under clamp-to-edge
addressing. -/
def clampDown {N : ℕ} (i : Fin N) : Fin N :=
  ⟨i.val - 1, by have h := i.isLt; omega⟩

/-- A 3-component vector, as in the shader code. -/
structure Vec3 where
  x : ℝ
  y : ℝ
  z : ℝ

/-- GLSL cross product. -/
noncomputable def cross (p q : Vec3) : Vec3 :=
  ⟨p.y * q.z - p.z * q.y, p.z * q.x - p.x * q.z, p.x * q.y - p.y * q.x⟩

/-- GLSL normalize of a 3-vector. -/
noncomputable def normalize3 (p : Vec3) : Vec3 :=
  let len := Real.sqrt (p.x ^ 2 + p.y ^ 2 + p.z ^ 2)
  ⟨p.x / len, p.y / len, p.z / len⟩

/-- Embedding of the dropShaderFs fragment shader: adds a smoothed radial
pulse into the height channel around u_center. -/
noncomputable def dropShaderFs (N : ℕ) (center : ℝ × ℝ) (radius strength : ℝ)
    (tex : Grid N) (i j : Fin N) : Texel :=
  let info := tex i j
  let drop0 := max 0
    (1 - Real.sqrt ((center.1 - cellUV N i) ^ 2 + (center.2 - cellUV N j) ^ 2) / radius)
  let drop := 0.5 - Real.cos (drop0 * Real.pi) * 0.5
  { info with r := info.r + drop * strength }

/-- Embedding of the updateShaderFs fragment shader: one damped
wave-equation step. u_delta is (1/N, 1/N), so the four samples are the
one-texel-offset neighbors with clamp-to-edge addressing. -/
noncomputable def updateShaderFs (N : ℕ) (damping : ℝ)
    (tex : Grid N) (i j : Fin N) : Texel :=
  let info := tex i j
  let average := ((tex (clampDown i) j).r + (tex (clampUp i) j).r
      + (tex i (clampDown j)).r + (tex i (clampUp j)).r) * 0.25
  let g2 := (info.g + (average - info.r) * 2) * damping
  { info with g := g2, r := info.r + g2 }

/-- Embedding of the normalShaderFs fragment shader: rebuilds the
normalX, normalZ channels from height differences. -/
noncomputable def normalShaderFs (N : ℕ) (tex : Grid N) (i j : Fin N) : Texel :=
  let info := tex i j
  let delta : ℝ := 1 / N
  let dx : Vec3 := ⟨delta, (tex (clampUp i) j).r - info.r, 0⟩
  let dy : Vec3 := ⟨0, (tex i (clampUp j)).r - info.r, delta⟩
  let n := normalize3 (cross dy dx)
  { info with b := n.x, a := n.z }

/-- Embedding of the volumeInSphere helper of sphereShaderFs: occupied
column volume of a sphere at the world position of the current texel. -/
noncomputable def volumeInSphere (N : ℕ) (radius : ℝ) (i j : Fin N)
    (center : Vec3) : ℝ :=
  let wx := cellUV N i * 2 - 1
  let wz := cellUV N j * 2 - 1
  let t := Real.sqrt ((wx - center.x) ^ 2 + (wz - center.z) ^ 2) / radius
  let dy := Real.exp (-(t * 1.5) ^ 6)
  let ymin := min 0 (center.y - dy)
  let ymax := min (max 0 (center.y + dy)) (ymin + 2 * dy)
  (ymax - ymin) * 0.1

/-- Embedding of the sphereShaderFs fragment shader: signed displacement
correction from the sphere moving between two centers. -/
noncomputable def sphereShaderFs (N : ℕ) (oldCenter newCenter : Vec3)
    (radius : ℝ) (tex : Grid N) (i j : Fin N) : Texel :=
  let info := tex i j
  { info with r := info.r + volumeInSphere N radius i j oldCenter
      - volumeInSphere N radius i j newCenter }

namespace GPGPUWater

/-- GPGPUWater.addDrop: run the drop shader over the read buffer and swap. -/
noncomputable def addDrop (N : ℕ) (x y radius strength : ℝ)
    (tex : Grid N) : Grid N :=
  fun i j => dropShaderFs N (x, y) radius strength tex i j

/-- GPGPUWater.moveSphere: run the sphere shader over the read buffer and swap. -/
noncomputable def moveSphere (N : ℕ) (oldCenter newCenter : Vec3)
    (radius : ℝ) (tex : Grid N) : Grid N :=
  fun i j => sphereShaderFs N oldCenter newCenter radius tex i j

/-- GPGPUWater.step: run the update shader over the read buffer and swap. -/
noncomputable def step (N : ℕ) (damping : ℝ) (tex : Grid N) : Grid N :=
  fun i j => updateShaderFs N damping tex i j

/-- GPGPUWater.updateNormals: run the normal shader over the read buffer
and swap. -/
noncomputable def updateNormals (N : ℕ) (tex : Grid N) : Grid N :=
  fun i j => normalShaderFs N tex i j

end GPGPUWater

/-- The grid in which every cell is fully at rest. -/
def restGrid (N : ℕ) : Grid N := fun _ _ => ⟨0, 0, 0, 0⟩

/-- Euclidean distance of two points of the plane, as the specification
writes distance((u,v),(cu,cv)). -/
noncomputable def euclDist (p q : ℝ × ℝ) : ℝ :=
  Real.sqrt ((p.1 - q.1) ^ 2 + (p.2 - q.2) ^ 2)

/-- Spec formula of section 4.1: the mean of the height channel at the
four one-cell-offset neighbors of a cell, with the clamped edge
addressing the implementation chose. -/
noncomputable def specAvg (N : ℕ) (tex : Grid N) (i j : Fin N) : ℝ :=
  ((tex (clampDown i) j).r + (tex (clampUp i) j).r
    + (tex i (clampDown j)).r + (tex i (clampUp j)).r) / 4

/-- Spec formula of section 4.2: the smoothed radial pulse added to the
height channel by one injection. -/
noncomputable def specDropAmount (uv center : ℝ × ℝ) (radius : ℝ) : ℝ :=
  let d := max 0 (1 - euclDist uv center / radius)
  0.5 - Real.cos (d * Real.pi) * 0.5

/-- Spec formula of section 4.4: the occupied column volume V(center) at a
cell whose world position is (wx, 0, wz), with scale constant k = 0.1. -/
noncomputable def specVolume (radius wx wz : ℝ) (center : Vec3) : ℝ :=
  let t := euclDist (wx, wz) (center.x, center.z) / radius
  let falloff := Real.exp (-(1.5 * t) ^ 6)
  let ymin := min 0 (center.y - falloff)
  let ymax := min (max 0 (center.y + falloff)) (ymin + 2 * falloff)
  (ymax - ymin) * 0.1

/-- C1: one wave-update step sends velocity to
(velocity + 2 * (avg - height)) * damping, where avg is the mean of the
four one-cell-offset neighbor heights of the read buffer, and sends
height to height plus the new velocity. -/
theorem C1_wave_update_recurrence (N : ℕ) (damping : ℝ) (tex : Grid N)
    (i j : Fin N) :
    (GPGPUWater.step N damping tex i j).g
        = ((tex i j).g + 2 * (specAvg N tex i j - (tex i j).r)) * damping
    ∧ (GPGPUWater.step N damping tex i j).r
        = (tex i j).r + (GPGPUWater.step N damping tex i j).g := by
  unfold GPGPUWater.step updateShaderFs specAvg
  exact ⟨by ring, rfl⟩

/-- The volumeInSphere helper of the sphere shader computes exactly the
occupied-column-volume formula of the specification, at the world
position the shader derives from the texel uv. -/
theorem volumeInSphere_eq_specVolume (N : ℕ) (radius : ℝ) (i j : Fin N)
    (center : Vec3) :
    volumeInSphere N radius i j center
      = specVolume radius (cellUV N i * 2 - 1) (cellUV N j * 2 - 1) center := by
  unfold volumeInSphere specVolume euclDist
  have h6 : ∀ t : ℝ, (t * 1.5) ^ 6 = (1.5 * t) ^ 6 := fun t => by ring
  simp only [h6]

/-- C3: the displacement pass adds V(oldCenter) - V(newCenter) to the
height channel of every cell, V being the spec formula with falloff
exp(-(1.5 t)^6) and scale constant 0.1, and leaves the velocity and
normal channels unchanged. -/
theorem C3_displacement_matches_spec (N : ℕ) (oldCenter newCenter : Vec3)
    (radius : ℝ) (tex : Grid N) (i j : Fin N) :
    (GPGPUWater.moveSphere N oldCenter newCenter radius tex i j).r
        = (tex i j).r
          + specVolume radius (cellUV N i * 2 - 1) (cellUV N j * 2 - 1) oldCenter
          - specVolume radius (cellUV N i * 2 - 1) (cellUV N j * 2 - 1) newCenter
    ∧ (GPGPUWater.moveSphere N oldCenter newCenter radius tex i j).g = (tex i j).g
    ∧ (GPGPUWater.moveSphere N oldCenter newCenter radius tex i j).b = (tex i j).b
    ∧ (GPGPUWater.moveSphere N oldCenter newCenter radius tex i j).a = (tex i j).a := by
  refine ⟨?_, rfl, rfl, rfl⟩
  show (tex i j).r + volumeInSphere N radius i j oldCenter
      - volumeInSphere N radius i j newCenter = _
  rw [volumeInSphere_eq_specVolume, volumeInSphere_eq_specVolume]

/-- One wave-update pass maps a grid at rest (height and velocity zero at
every cell) to a grid at rest, for every damping value. -/
theorem step_preserves_rest (N : ℕ) (damping : ℝ) (tex : Grid N)
    (h : ∀ i j, (tex i j).r = 0 ∧ (tex i j).g = 0) (i j : Fin N) :
    (GPGPUWater.step N damping tex i j).r = 0
    ∧ (GPGPUWater.step N damping tex i j).g = 0 := by
  unfold GPGPUWater.step updateShaderFs
  simp only [(h i j).1, (h i j).2,
    (h (clampDown i) j).1, (h (clampUp i) j).1,
    (h i (clampDown j)).1, (h i (clampUp j)).1]
  constructor <;> ring

/-- C4: from the all-rest grid, any number of wave-update steps with no
injections or displacement in between leaves every cell at height zero
and velocity zero, for every damping value. -/
theorem C4_rest_invariant (N : ℕ) (damping : ℝ) (k : ℕ) (tex : Grid N)
    (h : ∀ i j, (tex i j).r = 0 ∧ (tex i j).g = 0) :
    ∀ i j, (((GPGPUWater.step N damping)^[k]) tex i j).r = 0
      ∧ (((GPGPUWater.step N damping)^[k]) tex i j).g = 0 := by
  induction k generalizing tex with
  | zero => simpa using h
  | succ k ih =>
      rw [Function.iterate_succ_apply]
      exact ih (GPGPUWater.step N damping tex)
        (fun i j => step_preserves_rest N damping tex h i j)

/-- Witness for C4 at the concrete rest grid of size 2, damping 0.995,
three steps, cell (0,0). -/
theorem C4_rest_invariant_witness :
    (∀ i j : Fin 2, ((restGrid 2) i j).r = 0 ∧ ((restGrid 2) i j).g = 0)
    ∧ ((((GPGPUWater.step 2 0.995)^[3]) (restGrid 2) 0 0).r = 0
      ∧ (((GPGPUWater.step 2 0.995)^[3]) (restGrid 2) 0 0).g = 0) :=
  ⟨fun _ _ => ⟨rfl, rfl⟩,
    C4_rest_invariant 2 0.995 3 (restGrid 2) (fun _ _ => ⟨rfl, rfl⟩) 0 0⟩

/-- C5: moving the sphere from a center to the same center leaves every
channel of every cell of the grid exactly unchanged. -/
theorem C5_noop_body_move (N : ℕ) (P : Vec3) (radius : ℝ) (tex : Grid N)
    (i j : Fin N) :
    GPGPUWater.moveSphere N P P radius tex i j = tex i j := by
  unfold GPGPUWater.moveSphere sphereShaderFs
  ext
  · simp
  · rfl
  · rfl
  · rfl

/-- The height channel written by the drop shader, spelled out. -/
theorem dropShaderFs_r (N : ℕ) (center : ℝ × ℝ) (radius strength : ℝ)
    (tex : Grid N) (i j : Fin N) :
    (dropShaderFs N center radius strength tex i j).r
      = (tex i j).r
        + (0.5 - Real.cos (max 0 (1 - Real.sqrt ((center.1 - cellUV N i) ^ 2
            + (center.2 - cellUV N j) ^ 2) / radius) * Real.pi) * 0.5) * strength := rfl

/-- C2: an injection adds drop * strength to the height channel of every
cell, drop being the spec pulse, leaves the velocity and normal channels
of every cell unchanged, and leaves the height of every cell at distance
at least radius from the center unchanged. -/
theorem C2_drop_injection_spec (N : ℕ) (cu cv radius strength : ℝ)
    (tex : Grid N) (i j : Fin N) (hr : 0 < radius) :
    (GPGPUWater.addDrop N cu cv radius strength tex i j).r
        = (tex i j).r
          + specDropAmount (cellUV N i, cellUV N j) (cu, cv) radius * strength
    ∧ (GPGPUWater.addDrop N cu cv radius strength tex i j).g = (tex i j).g
    ∧ (GPGPUWater.addDrop N cu cv radius strength tex i j).b = (tex i j).b
    ∧ (GPGPUWater.addDrop N cu cv radius strength tex i j).a = (tex i j).a
    ∧ (radius ≤ euclDist (cellUV N i, cellUV N j) (cu, cv) →
        (GPGPUWater.addDrop N cu cv radius strength tex i j).r = (tex i j).r) := by
  have hsq : (cellUV N i - cu) ^ 2 + (cellUV N j - cv) ^ 2
      = (cu - cellUV N i) ^ 2 + (cv - cellUV N j) ^ 2 := by ring
  have he : GPGPUWater.addDrop N cu cv radius strength tex i j
      = dropShaderFs N (cu, cv) radius strength tex i j := rfl
  refine ⟨?_, rfl, rfl, rfl, ?_⟩
  · rw [he, dropShaderFs_r]
    simp only [specDropAmount, euclDist, hsq]
  · intro hdist
    have hd : radius ≤ Real.sqrt ((cu - cellUV N i) ^ 2 + (cv - cellUV N j) ^ 2) := by
      simpa only [euclDist, hsq] using hdist
    have hd0 : 1 - Real.sqrt ((cu - cellUV N i) ^ 2 + (cv - cellUV N j) ^ 2) / radius ≤ 0 := by
      have h1 : (1 : ℝ) ≤ Real.sqrt ((cu - cellUV N i) ^ 2 + (cv - cellUV N j) ^ 2) / radius :=
        (one_le_div hr).mpr hd
      linarith
    rw [he, dropShaderFs_r]
    simp only [max_eq_left hd0, zero_mul, Real.cos_zero]
    ring

/-- Witness for C2 at size 3, center (0.5, 0.5), radius 1, strength 1,
the rest grid and cell (1, 1). -/
theorem C2_drop_injection_spec_witness :
    (0 : ℝ) < 1
    ∧ ((GPGPUWater.addDrop 3 0.5 0.5 1 1 (restGrid 3) 1 1).r
          = ((restGrid 3) 1 1).r
            + specDropAmount (cellUV 3 1, cellUV 3 1) (0.5, 0.5) 1 * 1
      ∧ (GPGPUWater.addDrop 3 0.5 0.5 1 1 (restGrid 3) 1 1).g = ((restGrid 3) 1 1).g
      ∧ (GPGPUWater.addDrop 3 0.5 0.5 1 1 (restGrid 3) 1 1).b = ((restGrid 3) 1 1).b
      ∧ (GPGPUWater.addDrop 3 0.5 0.5 1 1 (restGrid 3) 1 1).a = ((restGrid 3) 1 1).a
      ∧ ((1 : ℝ) ≤ euclDist (cellUV 3 1, cellUV 3 1) (0.5, 0.5) →
          (GPGPUWater.addDrop 3 0.5 0.5 1 1 (restGrid 3) 1 1).r = ((restGrid 3) 1 1).r)) :=
  ⟨by norm_num, C2_drop_injection_spec 3 0.5 0.5 1 1 (restGrid 3) 1 1 (by norm_num)⟩

/-- C6 counterexample: addDrop performs no bounds check on its center, so
with the out-of-bounds center (1.5, 0.5), radius 2 and strength 1 on the
rest grid of size 3 the height of cell (1, 1) does change. -/
theorem C6_counterexample :
    (GPGPUWater.addDrop 3 1.5 0.5 2 1 (restGrid 3) 1 1).r
      ≠ ((restGrid 3) 1 1).r := by
  have he : GPGPUWater.addDrop 3 1.5 0.5 2 1 (restGrid 3) 1 1
      = dropShaderFs 3 (1.5, 0.5) 2 1 (restGrid 3) 1 1 := rfl
  have hcell : cellUV 3 (1 : Fin 3) = 1 / 2 := by
    unfold cellUV
    norm_num
  rw [he, dropShaderFs_r, hcell]
  have hsqrt : Real.sqrt (((1.5 : ℝ), (0.5 : ℝ)).1 - 1 / 2) ^ 2 = 1 := by norm_num
  have harg : ((1.5 : ℝ), (0.5 : ℝ)).1 - 1 / 2 = 1 := by norm_num
  have harg2 : ((1.5 : ℝ), (0.5 : ℝ)).2 - 1 / 2 = 0 := by norm_num
  rw [harg, harg2]
  have hs1 : Real.sqrt ((1 : ℝ) ^ 2 + 0 ^ 2) = 1 := by
    rw [show ((1 : ℝ) ^ 2 + 0 ^ 2) = 1 by norm_num, Real.sqrt_one]
  rw [hs1]
  have hmax : max (0 : ℝ) (1 - 1 / 2) = 1 / 2 := by norm_num
  rw [hmax]
  have hcos : Real.cos ((1 / 2 : ℝ) * Real.pi) = 0 := by
    rw [show ((1 / 2 : ℝ) * Real.pi) = Real.pi / 2 by ring, Real.cos_pi_div_two]
  rw [hcos]
  simp only [restGrid]
  norm_num

/-- C6 amended: addDrop applies no bounds check, so an out-of-bounds
center is not ignored in general; but every cell lies at distance at
least 1/2 from the center (1.5, 0.5), so addDrop(1.5, 0.5, radius,
strength) with 0 < radius and radius at most 1/2 leaves every channel of
every cell unchanged. -/
theorem C6_out_of_bounds_drop_amended (N : ℕ) (radius strength : ℝ)
    (tex : Grid N) (i j : Fin N) (h0 : 0 < radius) (h1 : radius ≤ 1 / 2) :
    GPGPUWater.addDrop N 1.5 0.5 radius strength tex i j = tex i j := by
  have hiN : (i : ℝ) + 1 ≤ N := by exact_mod_cast Nat.succ_le_of_lt i.isLt
  have hN0 : (0 : ℝ) < N := by
    have h := lt_of_le_of_lt (Nat.zero_le _) i.isLt
    exact_mod_cast h
  have hu1 : cellUV N i ≤ 1 := by
    unfold cellUV
    rw [div_le_one hN0]
    linarith
  have hdist : radius ≤ Real.sqrt ((((1.5 : ℝ), (0.5 : ℝ)).1 - cellUV N i) ^ 2
      + (((1.5 : ℝ), (0.5 : ℝ)).2 - cellUV N j) ^ 2) := by
    have h2 : (1 / 2 : ℝ) ≤ ((1.5 : ℝ), (0.5 : ℝ)).1 - cellUV N i := by
      simp only []
      norm_num
      linarith
    have h3 : ((1.5 : ℝ), (0.5 : ℝ)).1 - cellUV N i
        ≤ Real.sqrt ((((1.5 : ℝ), (0.5 : ℝ)).1 - cellUV N i) ^ 2
          + (((1.5 : ℝ), (0.5 : ℝ)).2 - cellUV N j) ^ 2) := by
      calc ((1.5 : ℝ), (0.5 : ℝ)).1 - cellUV N i
          = Real.sqrt ((((1.5 : ℝ), (0.5 : ℝ)).1 - cellUV N i) ^ 2) :=
            (Real.sqrt_sq (by linarith)).symm
        _ ≤ _ := Real.sqrt_le_sqrt (le_add_of_nonneg_right (sq_nonneg _))
    linarith
  have hd0 : 1 - Real.sqrt ((((1.5 : ℝ), (0.5 : ℝ)).1 - cellUV N i) ^ 2
      + (((1.5 : ℝ), (0.5 : ℝ)).2 - cellUV N j) ^ 2) / radius ≤ 0 := by
    have hq : (1 : ℝ) ≤ Real.sqrt ((((1.5 : ℝ), (0.5 : ℝ)).1 - cellUV N i) ^ 2
        + (((1.5 : ℝ), (0.5 : ℝ)).2 - cellUV N j) ^ 2) / radius :=
      (one_le_div h0).mpr hdist
    linarith
  have he : GPGPUWater.addDrop N 1.5 0.5 radius strength tex i j
      = dropShaderFs N (1.5, 0.5) radius strength tex i j := rfl
  rw [he]
  ext
  · rw [dropShaderFs_r]
    rw [max_eq_left hd0]
    simp only [zero_mul, Real.cos_zero]
    ring
  · rfl
  · rfl
  · rfl

/-- Witness for C6 amended at size 3, radius 1/4, strength 1, the rest
grid and cell (0, 0). -/
theorem C6_out_of_bounds_drop_amended_witness :
    ((0 : ℝ) < 1 / 4 ∧ (1 / 4 : ℝ) ≤ 1 / 2)
    ∧ GPGPUWater.addDrop 3 1.5 0.5 (1 / 4) 1 (restGrid 3) 0 0 = (restGrid 3) 0 0 :=
  ⟨⟨by norm_num, by norm_num⟩,
    C6_out_of_bounds_drop_amended 3 (1 / 4) 1 (restGrid 3) 0 0
      (by norm_num) (by norm_num)⟩

/-- C10: the wave-update pass leaves the normalX and normalZ channels of
every cell unchanged, and the normal-reconstruction pass leaves the
height and velocity channels of every cell unchanged. -/
theorem C10_pass_frame_effect (N : ℕ) (damping : ℝ) (tex : Grid N)
    (i j : Fin N) :
    (GPGPUWater.step N damping tex i j).b = (tex i j).b
    ∧ (GPGPUWater.step N damping tex i j).a = (tex i j).a
    ∧ (GPGPUWater.updateNormals N tex i j).r = (tex i j).r
    ∧ (GPGPUWater.updateNormals N tex i j).g = (tex i j).g :=
  ⟨rfl, rfl, rfl, rfl⟩

/-!
Interaction controller and sphere physics, from the WaterEngine class.
-/

/-- The gesture-relevant mutable state of the WaterEngine controller. -/
structure EngineState where
  isDraggingSphere : Bool
  lastWaterInteractionPoint : Option (ℝ × ℝ)
  controlsEnabled : Bool

/-- The onPointerUp handler: stops dragging, re-enables the orbit
controls, clears the water trail anchor. -/
def onPointerUp (s : EngineState) : EngineState :=
  { s with
    isDraggingSphere := false
    controlsEnabled := true
    lastWaterInteractionPoint := none }

/-- The onPointerLeave handler: clears the water trail anchor and
re-enables the orbit controls. -/
def onPointerLeave (s : EngineState) : EngineState :=
  { s with
    lastWaterInteractionPoint := none
    controlsEnabled := true }

/-- THREE.Vector2.lerp: move each component toward the target by the
fraction alpha. -/
noncomputable def lerp2 (p q : ℝ × ℝ) (alpha : ℝ) : ℝ × ℝ :=
  (p.1 + (q.1 - p.1) * alpha, p.2 + (q.2 - p.2) * alpha)

/-- The list of (u, v, radius, strength) injections the onPointerMove
handler issues in the trail branch, when a previous water interaction
point exists, the cursor maps to a valid fluid uv and is not over the
sphere. -/
noncomputable def trailInjections (lastP current : ℝ × ℝ)
    (interactionStrength : ℝ) : List (ℝ × ℝ × ℝ × ℝ) :=
  let dist := euclDist current lastP
  let strength := min interactionStrength (0.01 + dist * interactionStrength * 8)
  let segments : ℕ := max 1 ⌈dist / 0.015⌉₊
  (List.range segments).map (fun k : ℕ =>
    let t := (k : ℝ) / (segments : ℝ)
    let uv := lerp2 lastP current t
    (uv.1, uv.2, 0.02, strength))

/-- THREE.MathUtils.clamp. -/
noncomputable def clampR (value lo hi : ℝ) : ℝ := max lo (min hi value)

/-- The submerged-ratio computation of the sphere physics block of
WaterEngine.animate. -/
noncomputable def submergedRatio (radius y : ℝ) : ℝ :=
  if radius < y then 0
  else if y < -radius then 1
  else clampR ((radius - y) / (2 * radius)) 0 1

/-- C7 counterexample: a pointer-move whose current uv equals the trail
anchor has dist = 0, where the code issues max(1, ceil(0 / 0.015)) = 1
injection while the claimed count ceil(dist / 0.015) is 0. -/
theorem C7_counterexample :
    (trailInjections (0.3, 0.3) (0.3, 0.3) 0.1).length
      ≠ ⌈euclDist ((0.3 : ℝ), (0.3 : ℝ)) ((0.3 : ℝ), (0.3 : ℝ)) / 0.015⌉₊ := by
  have hd : euclDist ((0.3 : ℝ), (0.3 : ℝ)) ((0.3 : ℝ), (0.3 : ℝ)) = 0 := by
    unfold euclDist
    norm_num
  simp [trailInjections, hd]

/-- C7 amended: the trail branch issues exactly max(1, ceil(dist/0.015))
injections, at equally spaced points along the straight line from the
anchor to the current uv, each with radius 0.02 and strength
min(configuredStrength, 0.01 + dist * configuredStrength * 8); in
particular a drag from (0.1, 0.1) to (0.1, 0.25) issues exactly 10
injections. -/
theorem C7_trail_injections_amended (lastP current : ℝ × ℝ) (s : ℝ) :
    (trailInjections lastP current s).length
        = max 1 ⌈euclDist current lastP / 0.015⌉₊
    ∧ trailInjections lastP current s
        = (List.range (max 1 ⌈euclDist current lastP / 0.015⌉₊)).map (fun k : ℕ =>
            (lastP.1 + (k : ℝ) / ((max 1 ⌈euclDist current lastP / 0.015⌉₊ : ℕ) : ℝ)
                * (current.1 - lastP.1),
             lastP.2 + (k : ℝ) / ((max 1 ⌈euclDist current lastP / 0.015⌉₊ : ℕ) : ℝ)
                * (current.2 - lastP.2),
             0.02,
             min s (0.01 + euclDist current lastP * s * 8)))
    ∧ (trailInjections (0.1, 0.1) (0.1, 0.25) s).length = 10 := by
  refine ⟨?_, ?_, ?_⟩
  · simp [trailInjections]
  · simp only [trailInjections, lerp2]
    refine List.map_congr_left (fun k _ => ?_)
    exact Prod.ext (by ring) (Prod.ext (by ring) rfl)
  · have hd : euclDist ((0.1 : ℝ), (0.25 : ℝ)) ((0.1 : ℝ), (0.1 : ℝ)) = 0.15 := by
      unfold euclDist
      rw [show (((0.1 : ℝ) - 0.1) ^ 2 + ((0.25 : ℝ) - 0.1) ^ 2) = (0.15 : ℝ) ^ 2 by norm_num,
        Real.sqrt_sq (by norm_num)]
    simp only [trailInjections, hd, List.length_map, List.length_range]
    rw [show ((0.15 : ℝ) / 0.015) = 10 by norm_num]
    norm_num

/-- C8: the submerged ratio of the physics integrator equals
clamp((radius - y) / (2 radius), 0, 1) for every positive radius; it is
0 above y = radius, 1 below y = -radius, and exactly 1/2 at y = 0. -/
theorem C8_submerged_ratio_spec (radius y : ℝ) (hr : 0 < radius) :
    submergedRatio radius y = clampR ((radius - y) / (2 * radius)) 0 1
    ∧ (radius < y → submergedRatio radius y = 0)
    ∧ (y < -radius → submergedRatio radius y = 1)
    ∧ submergedRatio radius 0 = 1 / 2 := by
  have hmain : ∀ z : ℝ, submergedRatio radius z
      = clampR ((radius - z) / (2 * radius)) 0 1 := by
    intro z
    unfold submergedRatio clampR
    split_ifs with ha hb
    · have hq : (radius - z) / (2 * radius) < 0 :=
        div_neg_of_neg_of_pos (by linarith) (by linarith)
      rw [min_eq_right (by linarith), max_eq_left (by linarith)]
    · have hq : 1 < (radius - z) / (2 * radius) := by
        rw [lt_div_iff₀ (by linarith)]
        linarith
      rw [min_eq_left (by linarith), max_eq_right (by linarith)]
    · rfl
  refine ⟨hmain y, ?_, ?_, ?_⟩
  · intro h
    unfold submergedRatio
    rw [if_pos h]
  · intro h
    unfold submergedRatio
    rw [if_neg (by linarith), if_pos h]
  · rw [hmain 0]
    unfold clampR
    rw [show (radius - 0) / (2 * radius) = 1 / 2 by field_simp; ring]
    norm_num

/-- Witness for C8 at radius 1 and y = 2. -/
theorem C8_submerged_ratio_spec_witness :
    (0 : ℝ) < 1
    ∧ (submergedRatio 1 2 = clampR ((1 - 2) / (2 * 1)) 0 1
      ∧ ((1 : ℝ) < 2 → submergedRatio 1 2 = 0)
      ∧ ((2 : ℝ) < -1 → submergedRatio 1 2 = 1)
      ∧ submergedRatio 1 0 = 1 / 2) :=
  ⟨by norm_num, C8_submerged_ratio_spec 1 2 (by norm_num)⟩

/-- A state in which the sphere is being dragged and a water trail anchor
exists. -/
def draggingState : EngineState := ⟨true, some (0.5, 0.5), false⟩

/-- C9 counterexample: the onPointerLeave handler does not end a sphere
drag; from a dragging state it leaves isDraggingSphere true, so the
machine is not in Idle after pointer-leave. -/
theorem C9_counterexample :
    (onPointerLeave draggingState).isDraggingSphere ≠ false := by
  simp [onPointerLeave, draggingState]

/-- C9 amended: pointer-up ends the drag and clears the trail anchor;
pointer-leave clears the trail anchor but leaves isDraggingSphere
exactly as it was. -/
theorem C9_pointer_up_leave_amended (s : EngineState) :
    (onPointerUp s).isDraggingSphere = false
    ∧ (onPointerUp s).lastWaterInteractionPoint = none
    ∧ (onPointerLeave s).lastWaterInteractionPoint = none
    ∧ (onPointerLeave s).isDraggingSphere = s.isDraggingSphere :=
  ⟨rfl, rfl, rfl, rfl⟩

end WaterSim
